import Mathlib

/-!
Formal model of the transcriber pipeline implemented in src/main.py.

The Python source is shallowly embedded: Python floats are modelled as exact
rationals, Python int() as truncation toward zero, and the fallible calls
(os.path.getsize on a missing file, float() on a non-numeric string, len(None))
as explicit Option/Except values.  External collaborators (ffmpeg, ffprobe,
os.listdir, the speech-to-text service) are inputs to the modelled functions.
-/

/-- Truncation toward zero: the behavior of Python int() applied to a number. -/
def pyint (q : ℚ) : ℤ := if 0 ≤ q then ⌊q⌋ else ⌈q⌉

/-- Python float modulo a - b * floor(a / b); faithful for a positive modulus b. -/
def pymod (a b : ℚ) : ℚ := a - b * ⌊a / b⌋

/-- Python float floor-division a // b, which yields floor(a / b) as a number. -/
def pyfloordiv (a b : ℚ) : ℚ := (⌊a / b⌋ : ℚ)

/-- Components of an SRT timestamp HH:MM:SS,mmm as computed by the source. -/
structure SrtTime where
  h : ℤ
  m : ℤ
  s : ℤ
  ms : ℤ
deriving DecidableEq

/-- Model of seconds_to_srt_time (src/main.py lines 451-470):
hours = int(seconds // 3600), minutes = int((seconds % 3600) // 60),
secs = int(seconds % 60), milliseconds = int((seconds % 1) * 1000). -/
def seconds_to_srt_time (seconds : ℚ) : SrtTime :=
  { h := pyint (pyfloordiv seconds 3600)
    m := pyint (pyfloordiv (pymod seconds 3600) 60)
    s := pyint (pymod seconds 60)
    ms := pyint (pymod seconds 1 * 1000) }

/-- Model of srt_time_to_seconds (src/main.py lines 473-497):
total seconds = hours * 3600 + minutes * 60 + seconds + milliseconds / 1000. -/
def srt_time_to_seconds (t : SrtTime) : ℚ :=
  (t.h : ℚ) * 3600 + (t.m : ℚ) * 60 + (t.s : ℚ) + (t.ms : ℚ) / 1000

lemma floor_natCast_div (a b : ℕ) (hb : b ≠ 0) :
    ⌊(a : ℚ) / (b : ℚ)⌋ = ((a / b : ℕ) : ℤ) := by
  have hb0 : (0 : ℚ) < (b : ℚ) := by exact_mod_cast Nat.pos_of_ne_zero hb
  rw [Int.floor_eq_iff]
  constructor
  · rw [le_div_iff₀ hb0]
    exact_mod_cast Nat.div_mul_le_self a b
  · rw [div_lt_iff₀ hb0]
    have h1 : a < (a / b + 1) * b := by
      have h2 := Nat.div_add_mod a b
      have h3 : a % b < b := Nat.mod_lt a (Nat.pos_of_ne_zero hb)
      have h4 : (a / b + 1) * b = b * (a / b) + b := by ring
      linarith [h2, h3, h4.ge, h4.le]
    exact_mod_cast h1

lemma pyint_intCast (z : ℤ) : pyint ((z : ℤ) : ℚ) = z := by
  unfold pyint
  split <;> simp

lemma div_thousand_div (n k : ℕ) :
    (n : ℚ) / 1000 / (k : ℚ) = (n : ℚ) / ((1000 * k : ℕ) : ℚ) := by
  push_cast
  rw [div_div]

lemma pymod_thousandths (n k : ℕ) (hk : k ≠ 0) :
    pymod ((n : ℚ) / 1000) (k : ℚ) = ((n % (1000 * k) : ℕ) : ℚ) / 1000 := by
  unfold pymod
  rw [div_thousand_div n k, floor_natCast_div n (1000 * k) (Nat.mul_ne_zero (by norm_num) hk)]
  rw [Int.cast_natCast]
  have h3 : ((1000 * k : ℕ) : ℚ) * ((n / (1000 * k) : ℕ) : ℚ) + ((n % (1000 * k) : ℕ) : ℚ)
      = (n : ℚ) := by exact_mod_cast Nat.div_add_mod n (1000 * k)
  rw [Nat.cast_mul, Nat.cast_ofNat] at h3
  linarith

lemma pyfloordiv_thousandths (n k : ℕ) (hk : k ≠ 0) :
    pyint (pyfloordiv ((n : ℚ) / 1000) (k : ℚ)) = ((n / (1000 * k) : ℕ) : ℤ) := by
  unfold pyfloordiv
  rw [div_thousand_div n k, floor_natCast_div n (1000 * k) (Nat.mul_ne_zero (by norm_num) hk)]
  exact pyint_intCast _

lemma srt_h (n : ℕ) :
    pyint (pyfloordiv ((n : ℚ) / 1000) 3600) = ((n / 3600000 : ℕ) : ℤ) := by
  have h := pyfloordiv_thousandths n 3600 (by norm_num)
  norm_num at h
  exact h

lemma srt_m (n : ℕ) :
    pyint (pyfloordiv (pymod ((n : ℚ) / 1000) 3600) 60) = ((n % 3600000 / 60000 : ℕ) : ℤ) := by
  have h1 := pymod_thousandths n 3600 (by norm_num)
  norm_num at h1
  rw [h1]
  have h2 := pyfloordiv_thousandths (n % 3600000) 60 (by norm_num)
  norm_num at h2
  exact h2

lemma srt_s (n : ℕ) :
    pyint (pymod ((n : ℚ) / 1000) 60) = ((n % 60000 / 1000 : ℕ) : ℤ) := by
  have h1 := pymod_thousandths n 60 (by norm_num)
  norm_num at h1
  rw [h1]
  unfold pyint
  rw [if_pos (by positivity)]
  have h2 := floor_natCast_div (n % 60000) 1000 (by norm_num)
  norm_num at h2
  exact h2

lemma srt_ms (n : ℕ) :
    pyint (pymod ((n : ℚ) / 1000) 1 * 1000) = ((n % 1000 : ℕ) : ℤ) := by
  have h1 := pymod_thousandths n 1 (by norm_num)
  norm_num at h1
  rw [h1]
  rw [div_mul_cancel₀ _ (by norm_num : (1000 : ℚ) ≠ 0)]
  unfold pyint
  rw [if_pos (by positivity)]
  simp

lemma seconds_to_srt_time_thousandths (n : ℕ) :
    seconds_to_srt_time ((n : ℚ) / 1000) =
      ⟨((n / 3600000 : ℕ) : ℤ), ((n % 3600000 / 60000 : ℕ) : ℤ),
       ((n % 60000 / 1000 : ℕ) : ℤ), ((n % 1000 : ℕ) : ℤ)⟩ := by
  unfold seconds_to_srt_time
  rw [SrtTime.mk.injEq]
  exact ⟨srt_h n, srt_m n, srt_s n, srt_ms n⟩

/-- C3: for every non-negative seconds value with millisecond resolution (that is,
every value n / 1000 with n a natural number), converting it to an SRT timestamp
with seconds_to_srt_time (which truncates each component) and parsing that
timestamp back with srt_time_to_seconds recovers the value exactly, hence in
particular to within 1 millisecond. -/
theorem c3_time_roundtrip (n : ℕ) :
    srt_time_to_seconds (seconds_to_srt_time ((n : ℚ) / 1000)) = (n : ℚ) / 1000 := by
  rw [seconds_to_srt_time_thousandths]
  unfold srt_time_to_seconds
  have key : 3600000 * (n / 3600000) + 60000 * (n % 3600000 / 60000)
      + 1000 * (n % 60000 / 1000) + n % 1000 = n := by omega
  have keyq : (3600000 : ℚ) * ((n / 3600000 : ℕ) : ℚ)
      + 60000 * ((n % 3600000 / 60000 : ℕ) : ℚ)
      + 1000 * ((n % 60000 / 1000 : ℕ) : ℚ) + ((n % 1000 : ℕ) : ℚ) = (n : ℚ) := by
    exact_mod_cast key
  simp only [Int.cast_natCast]
  linarith

/-- An entry of the scanned directory: basename and size in bytes, the two
attributes of a file that list_whisper_supported_files consults. -/
structure FileEntry where
  name : String
  sizeBytes : ℕ
deriving DecidableEq

/-- A supported file as collected by list_whisper_supported_files: the dict
with keys file_path and file_size (the size converted to MB). -/
structure SupportedFile where
  file_path : String
  file_size : ℚ
deriving DecidableEq

/-- Character-wise lower-casing of a string, the behavior of Python str.lower()
on the ASCII names the pipeline handles. -/
def str_lower (s : String) : String := String.mk (s.data.map Char.toLower)

/-- Model of os.path.splitext restricted to basenames: the extension runs from
the last dot to the end, except that a name whose characters before that dot
are all dots has no extension. -/
def splitext_ext (s : String) : String :=
  let cs := s.data
  match cs.reverse.findIdx? (fun c => c == '.') with
  | none => ""
  | some i =>
      let dotPos := cs.length - 1 - i
      if (cs.take dotPos).all (fun c => c == '.') then "" else String.mk (cs.drop dotPos)

/-- The extension whitelist of src/main.py line 114. -/
def supported_extensions : List String :=
  [".mp3", ".mp4", ".mpeg", ".mpga", ".m4a", ".wav", ".webm"]

/-- One iteration of the collection loop of list_whisper_supported_files
(src/main.py lines 125-130): compute the lower-cased extension and the size in
MB, and append the file whenever the extension is whitelisted.  The size takes
no part in the condition. -/
def classifier_step (supported_files : List SupportedFile) (file : FileEntry) :
    List SupportedFile :=
  if supported_extensions.contains (str_lower (splitext_ext file.name)) then
    supported_files ++ [⟨file.name, (file.sizeBytes : ℚ) / (1024 * 1024)⟩]
  else supported_files

/-- Model of list_whisper_supported_files restricted to its collection loop
over an already-listed set of entries (src/main.py lines 114-130). -/
def list_whisper_supported_files_core (files : List FileEntry) : List SupportedFile :=
  files.foldl classifier_step []

/-- Modelled from the spec wording of C5 without its size condition: keep
exactly the entries whose extension, compared case-insensitively, is
whitelisted, in listing order. -/
def classifier_ext_filter (files : List FileEntry) : List SupportedFile :=
  (files.filter
      (fun file => supported_extensions.contains (str_lower (splitext_ext file.name)))).map
    (fun file => ⟨file.name, (file.sizeBytes : ℚ) / (1024 * 1024)⟩)

lemma classifier_foldl_acc (files : List FileEntry) (acc : List SupportedFile) :
    files.foldl classifier_step acc = acc ++ classifier_ext_filter files := by
  induction files generalizing acc with
  | nil => simp [classifier_ext_filter]
  | cons f t ih =>
      rw [List.foldl_cons, ih]
      unfold classifier_step classifier_ext_filter
      by_cases hp : str_lower (splitext_ext f.name) ∈ supported_extensions
      · simp [hp, List.filter_cons]
      · simp [hp, List.filter_cons]

/-- C5 amended: list_whisper_supported_files returns exactly the entries whose
extension (case-insensitively) is in the whitelist, in the listing order; the
size in MB is computed and reported but takes no part in the selection. -/
theorem c5_classifier_ext_only (files : List FileEntry) :
    list_whisper_supported_files_core files = classifier_ext_filter files := by
  rw [list_whisper_supported_files_core, classifier_foldl_acc, List.nil_append]

/-- C5 counterexample: a 26 MB mp3 entry (27262976 bytes) exceeds the 25 MB
ceiling, yet the classifier returns it, so entries failing the size condition
are not excluded as the claim states. -/
theorem c5_counterexample :
    list_whisper_supported_files_core [⟨"big.mp3", 27262976⟩] = [⟨"big.mp3", 26⟩]
      ∧ (25 : ℚ) < 26 := by
  constructor
  · have hext : str_lower (splitext_ext ("big.mp3")) ∈ supported_extensions := by
      decide
    simp [list_whisper_supported_files_core, classifier_step, hext]
    norm_num
  · norm_num

/-- Round half to even to an integer, the rounding Python round() applies. -/
def round_half_even (q : ℚ) : ℤ :=
  if q - (⌊q⌋ : ℚ) < 1 / 2 then ⌊q⌋
  else if 1 / 2 < q - (⌊q⌋ : ℚ) then ⌊q⌋ + 1
  else if ⌊q⌋ % 2 = 0 then ⌊q⌋ else ⌊q⌋ + 1

/-- Model of Python round(x, 2): nearest hundredth, ties to even. -/
def py_round2 (q : ℚ) : ℚ := (round_half_even (q * 100) : ℚ) / 100

lemma round_half_even_sub_le (q : ℚ) : |(round_half_even q : ℚ) - q| ≤ 1 / 2 := by
  have h1 := Int.floor_le q
  have h2 := Int.lt_floor_add_one q
  unfold round_half_even
  split_ifs with ha hb hc <;> rw [abs_le] <;> push_cast <;> constructor <;> linarith

/-- Model of the arithmetic of chunk_file (src/main.py lines 277-283):
chunk_count = math.ceil(reduced_file_size / 25); chunk_duration is computed as
duration / chunk_count and immediately reassigned to its value rounded by
round(chunk_duration * 1.001, 2), which is the value handed to the splitter. -/
def chunk_params (reduced_file_size duration : ℚ) : ℤ × ℚ :=
  (⌈reduced_file_size / 25⌉,
    py_round2 (duration / ((⌈reduced_file_size / 25⌉ : ℤ) : ℚ) * (1001 / 1000)))

lemma chunk_params_scenario : chunk_params 60 120 = (3, 4004 / 100) := by
  have hc : ⌈(60 : ℚ) / 25⌉ = (3 : ℤ) := by
    rw [Int.ceil_eq_iff] <;> norm_num
  unfold chunk_params py_round2 round_half_even
  rw [hc]
  have harg : (120 : ℚ) / ((3 : ℤ) : ℚ) * (1001 / 1000) * 100 = 4004 := by norm_num
  rw [harg]
  have hfl : ⌊(4004 : ℚ)⌋ = (4004 : ℤ) := by
    rw [Int.floor_eq_iff] <;> norm_num
  rw [hfl]
  norm_num

/-- Model of os.path.join for a relative name under a directory. -/
def path_join (dir file : String) : String := dir ++ "/" ++ file

/-- Model of the chunk list construction of chunk_file (src/main.py lines
327-331): the returned list maps the os.listdir output through a path join,
with no reordering of its own. -/
def chunk_files_of_listing (chunk_output_dir : String) (listing : List String) :
    List String :=
  listing.map (fun file => path_join chunk_output_dir file)

/-- C4 counterexample: for reducedSizeMB = 51 and duration 100 s the code
computes 3 chunks and a target duration of 33.37 s, the two-decimal rounding of
(100 / 3) * 1.001 = 33.3666..., so the duration passed to the splitter differs
from (duration / chunk_count) * 1.001. -/
theorem c4_counterexample :
    chunk_params 51 100 = (3, 3337 / 100)
      ∧ (3337 / 100 : ℚ) ≠ (100 / 3) * (1001 / 1000) := by
  constructor
  · have hc : ⌈(51 : ℚ) / 25⌉ = (3 : ℤ) := by
      rw [Int.ceil_eq_iff] <;> norm_num
    unfold chunk_params py_round2 round_half_even
    rw [hc]
    have harg : (100 : ℚ) / ((3 : ℤ) : ℚ) * (1001 / 1000) * 100 = 10010 / 3 := by norm_num
    rw [harg]
    have hfl : ⌊(10010 : ℚ) / 3⌋ = (3336 : ℤ) := by
      rw [Int.floor_eq_iff] <;> norm_num
    rw [hfl]
    norm_num
  · norm_num

/-- C4 amended: for reducedSizeMB > 25 and duration D > 0 the Segmenter
computes chunk_count = ceil(reducedSizeMB / 25), and the target segment
duration is (D / chunk_count) * 1.001 rounded to two decimal places (ties to
even), hence within 1/200 s of (D / chunk_count) * 1.001; in particular for
reducedSizeMB = 60 and D = 120 it computes exactly 3 chunks of 40.04 s. -/
theorem c4_chunk_params (size D : ℚ) (h25 : 25 < size) (hD : 0 < D) :
    (chunk_params size D).1 = ⌈size / 25⌉
      ∧ |(chunk_params size D).2 - D / ((⌈size / 25⌉ : ℤ) : ℚ) * (1001 / 1000)| ≤ 1 / 200
      ∧ chunk_params 60 120 = (3, 4004 / 100) := by
  refine ⟨rfl, ?_, chunk_params_scenario⟩
  have h := round_half_even_sub_le (D / ((⌈size / 25⌉ : ℤ) : ℚ) * (1001 / 1000) * 100)
  unfold chunk_params py_round2
  rw [abs_le] at h ⊢
  constructor <;> simp only [] <;> linarith

theorem c4_chunk_params_witness :
    (25 : ℚ) < 60 ∧ (0 : ℚ) < 120 ∧
      ((chunk_params (60 : ℚ) (120 : ℚ)).1 = ⌈(60 : ℚ) / 25⌉
        ∧ |(chunk_params (60 : ℚ) (120 : ℚ)).2
            - 120 / ((⌈(60 : ℚ) / 25⌉ : ℤ) : ℚ) * (1001 / 1000)| ≤ 1 / 200
        ∧ chunk_params 60 120 = (3, 4004 / 100)) :=
  ⟨by norm_num, by norm_num, c4_chunk_params 60 120 (by norm_num) (by norm_num)⟩

/-- C6: evaluated at a directory listing that is not in sequence order, the
Segmenter returns the chunk paths exactly in listing order (chunk 001 before
chunk 000) and imposes no ordering of its own, contrary to the claim. -/
theorem c6_listing_order_inherited :
    chunk_files_of_listing ("reduced_files/lecture")
        ["lecture-chunk_001.ogg", "lecture-chunk_000.ogg"]
      = ["reduced_files/lecture/lecture-chunk_001.ogg",
         "reduced_files/lecture/lecture-chunk_000.ogg"]
      ∧ chunk_files_of_listing ("reduced_files/lecture")
          ["lecture-chunk_001.ogg", "lecture-chunk_000.ogg"]
        ≠ ["reduced_files/lecture/lecture-chunk_000.ogg",
           "reduced_files/lecture/lecture-chunk_001.ogg"] := by
  constructor
  · rfl
  · decide

/-- A raw transcription segment as returned by the speech-to-text service for
one chunk: 0-based local id, chunk-relative times, and text. -/
structure RawSegment where
  id : ℕ
  startSec : ℚ
  endSec : ℚ
  text : String
deriving DecidableEq

/-- One block of the transcript file: the id line, the two timestamps of the
time line, and the text line.  The source stores blocks as text; the service
texts are single non-empty lines, so the block structure is recoverable from
the line structure the source relies on. -/
structure TranscriptBlock where
  id : ℕ
  startT : SrtTime
  endT : SrtTime
  text : String
deriving DecidableEq

/-- Whitespace trimming at both ends, the behavior of Python str.strip() on
the texts the service returns. -/
def str_trim (s : String) : String :=
  String.mk (((s.data.dropWhile Char.isWhitespace).reverse.dropWhile
    Char.isWhitespace).reverse)

/-- Model of the per-segment loop of whisper (src/main.py lines 429-448): each
raw segment becomes the block with id = (segment id + 1) + last_id, both
timestamps shifted by last_timestamp_seconds and rendered through
seconds_to_srt_time, and stripped text.  The last_text parameter is accepted,
as in the source, and never read. -/
def whisper (segments : List RawSegment) (last_timestamp_seconds : ℚ)
    (last_id : ℕ) (last_text : String) : List TranscriptBlock :=
  segments.map (fun segment =>
    { id := segment.id + 1 + last_id
      startT := seconds_to_srt_time (segment.startSec + last_timestamp_seconds)
      endT := seconds_to_srt_time (segment.endSec + last_timestamp_seconds)
      text := str_trim segment.text })

/-- Zero padding of a numeral string to a width, as the 02d and 03d format
specs produce for non-negative values. -/
def zfill (width : ℕ) (s : String) : String :=
  String.mk (List.replicate (width - s.data.length) '0') ++ s

/-- Rendering of an SRT timestamp as HH:MM:SS,mmm with 2-2-2-3 padding. -/
def srt_time_render (t : SrtTime) : String :=
  zfill 2 (toString t.h) ++ ":" ++ zfill 2 (toString t.m) ++ ":"
    ++ zfill 2 (toString t.s) ++ "," ++ zfill 3 (toString t.ms)

/-- Rendering of one block in the f-string format of src/main.py line 445. -/
def render_block (b : TranscriptBlock) : String :=
  toString b.id ++ "\n" ++ srt_time_render b.startT ++ " --> "
    ++ srt_time_render b.endT ++ "\n" ++ b.text ++ "\n"

/-- The string whisper returns (src/main.py line 448): the rendered blocks
joined with single newlines. -/
def whisper_srt (segments : List RawSegment) (last_timestamp_seconds : ℚ)
    (last_id : ℕ) (last_text : String) : String :=
  String.intercalate ("\n")
    ((whisper segments last_timestamp_seconds last_id last_text).map render_block)

/-- Continuation state: last written global id and last written end time. -/
structure ContinuationState where
  lastId : ℕ
  lastEndSeconds : ℚ

/-- A stitched segment: a raw segment after the continuation transform. -/
structure StitchedSegment where
  globalId : ℕ
  startSec : ℚ
  endSec : ℚ
  text : String

/-- Modelled from the spec wording of C2: globalId = localId + 1 + lastId,
both times shifted by lastEndSeconds, text trimmed. -/
def stitchSpec (c : ContinuationState) (r : RawSegment) : StitchedSegment :=
  ⟨r.id + 1 + c.lastId, r.startSec + c.lastEndSeconds, r.endSec + c.lastEndSeconds,
    str_trim r.text⟩

/-- Rendering of a stitched segment into a transcript block. -/
def renderStitched (st : StitchedSegment) : TranscriptBlock :=
  ⟨st.globalId, seconds_to_srt_time st.startSec, seconds_to_srt_time st.endSec, st.text⟩

/-- C2: for every chunk and continuation state, the blocks whisper produces
are exactly the renderings of the spec transform: globalId = localId + 1 +
lastId, startSeconds and endSeconds both shifted by lastEndSeconds, and text
stripped of leading and trailing whitespace. -/
theorem c2_stitch_transform (segments : List RawSegment) (c : ContinuationState)
    (last_text : String) :
    whisper segments c.lastEndSeconds c.lastId last_text
      = (segments.map (stitchSpec c)).map renderStitched := by
  rw [List.map_map]
  rfl

/-- C10: the output whisper produces does not depend on the last_text value
recovered from the previous chunk: with the same segments, the same last id
and the same last end time, any two last_text values yield the identical
block list and the identical SRT output string. -/
theorem c10_last_text_irrelevant (segments : List RawSegment)
    (last_timestamp_seconds : ℚ) (last_id : ℕ) (t1 t2 : String) :
    whisper segments last_timestamp_seconds last_id t1
        = whisper segments last_timestamp_seconds last_id t2
      ∧ whisper_srt segments last_timestamp_seconds last_id t1
        = whisper_srt segments last_timestamp_seconds last_id t2 :=
  ⟨rfl, rfl⟩

/-- Suffix test on strings, the behavior of Python str.endswith. -/
def str_endswith (s suffix : String) : Bool := suffix.data.isSuffixOf s.data

/-- Infix test on character lists: does sub occur contiguously in l. -/
def chars_isInfixOf (sub : List Char) : List Char → Bool
  | [] => sub.isEmpty
  | c :: t => sub.isPrefixOf (c :: t) || chars_isInfixOf sub t

/-- Substring test on strings, the behavior of the Python in operator. -/
def str_contains (s sub : String) : Bool := chars_isInfixOf sub.data s.data

/-- Zero-padded three-digit rendering of a sequence index, the %03d of the
chunk file name pattern (src/main.py line 307), for indices below 1000. -/
def pad3 (n : ℕ) : String :=
  if n < 1000 then
    String.mk [Nat.digitChar (n / 100 % 10), Nat.digitChar (n / 10 % 10),
      Nat.digitChar (n % 10)]
  else toString n

/-- The basename without extension of chunk number idx of a base name, per
the output pattern base-chunk_%03d of chunk_file. -/
def chunkName (base : String) (idx : ℕ) : String := base ++ "-chunk_" ++ pad3 idx

/-- Model of the continuation-state recovery of transcription (src/main.py
lines 346-376): the state stays fresh at (0, 0) unless the file name contains
-chunk_ and does not end with the character 0; in the latter case last_id is
read from the id line of the last block of the transcript and
last_timestamp_seconds is parsed from the end timestamp of its time line.
The source opens the transcript file and would raise if it were missing; the
none branch returns the fresh state and is exercised by no theorem below. -/
def continuation_used (file_name_without_ext : String)
    (transcript : List TranscriptBlock) : ℕ × ℚ :=
  if str_contains file_name_without_ext ("-chunk_")
      && !(str_endswith file_name_without_ext ("0")) then
    match transcript.getLast? with
    | some b => (b.id, srt_time_to_seconds b.endT)
    | none => (0, 0)
  else (0, 0)

/-- The text line of the last block: the last_text the source reads at
src/main.py line 376 (and whisper then ignores). -/
def last_text_of (transcript : List TranscriptBlock) : String :=
  ((transcript.getLast?).map TranscriptBlock.text).getD ""

/-- Model of one call of transcription (src/main.py lines 334-398) on a chunk
file, at the level of the per-base-name transcript content: recover the
continuation state from the transcript written so far, transcribe through
whisper, and append the new blocks to the transcript file. -/
def transcription (file_name_without_ext : String)
    (transcript : List TranscriptBlock) (segments : List RawSegment) :
    List TranscriptBlock :=
  transcript
    ++ whisper segments (continuation_used file_name_without_ext transcript).2
        (continuation_used file_name_without_ext transcript).1
        (last_text_of transcript)

/-- Processing of the chunks of one base name in sequence order: chunk idx is
transcribed under the name chunkName base idx and each call appends to the
same transcript (the loop of src/main.py lines 583-585 over the chunk list). -/
def run_chunks (base : String) (chunks : List (List RawSegment)) :
    List TranscriptBlock :=
  chunks.enum.foldl
    (fun transcript p => transcription (chunkName base p.1) transcript p.2) []

lemma fmt_zero : seconds_to_srt_time 0 = ⟨0, 0, 0, 0⟩ := by
  unfold seconds_to_srt_time pyint pymod pyfloordiv
  norm_num

lemma parse_zero : srt_time_to_seconds ⟨0, 0, 0, 0⟩ = 0 := by
  unfold srt_time_to_seconds
  norm_num

/-- C1: evaluation of the continuation-state recovery at chunk index 10 of a
base name whose transcript ends in block 7 with end time 30 s: the name
lecture-chunk_010 ends with the character 0, so the source uses the fresh
state (0, 0) instead of the pair (7, 30) derived from the last written block,
although chunk 10 is not the first chunk; index 3 does recover (7, 30). -/
theorem c1_continuation_reset_at_chunk_ten :
    continuation_used (chunkName ("lecture") 10)
        [⟨7, ⟨0, 0, 29, 0⟩, ⟨0, 0, 30, 0⟩, "x"⟩] = (0, 0)
      ∧ continuation_used (chunkName ("lecture") 3)
          [⟨7, ⟨0, 0, 29, 0⟩, ⟨0, 0, 30, 0⟩, "x"⟩] = (7, 30)
      ∧ ((0, 0) : ℕ × ℚ) ≠ (7, 30) := by
  refine ⟨?_, ?_, ?_⟩
  · have hcond : (str_contains (chunkName ("lecture") 10) ("-chunk_")
        && !(str_endswith (chunkName ("lecture") 10) ("0"))) = false := by decide
    simp [continuation_used, hcond]
  · have hcond : (str_contains (chunkName ("lecture") 3) ("-chunk_")
        && !(str_endswith (chunkName ("lecture") 3) ("0"))) = true := by decide
    simp [continuation_used, hcond, srt_time_to_seconds]
  · intro h
    rw [Prod.ext_iff] at h
    exact absurd h.1 (by norm_num)

/-- C7: evaluation at a failing input of eleven chunks of the base name
lecture, each chunk transcribed to the single raw segment with localId 0,
times 0 and text a (non-negative, non-decreasing chunk-local times): chunk
index 10 is treated as a fresh start because its name ends with the character
0, so the concatenated global ids come out as 1..10 followed by 1 again,
which is not strictly increasing. -/
theorem c7_continuity_broken_at_eleven_chunks :
    (run_chunks ("lecture") (List.replicate 11 [⟨0, 0, 0, "a"⟩])).map
        TranscriptBlock.id = [1, 2, 3, 4, 5, 6, 7, 8, 9, 10, 1]
      ∧ ¬ List.Chain' (fun a b => a < b) [1, 2, 3, 4, 5, 6, 7, 8, 9, 10, 1] := by
  constructor
  · have hcont : ∀ k, k < 11 → str_contains (chunkName ("lecture") k) ("-chunk_") = true := by
      decide
    have hend : ∀ k, k < 11 → str_endswith (chunkName ("lecture") k) ("0")
        = decide (k % 10 = 0) := by decide
    have htrim : str_trim ("a") = "a" := by decide
    simp [run_chunks, List.replicate, List.enum, List.enumFrom, transcription,
      continuation_used, last_text_of, whisper, List.getLast?, hcont, hend,
      fmt_zero, parse_zero, htrim]
  · simp [List.chain'_cons]

/-- The Python exceptions the model tracks. -/
inductive PyError where
  | typeError
  | fileNotFoundError
  | valueError
deriving DecidableEq

/-- An input path as the filesystem sees it: an existing file, an existing
directory with its entries, or neither. -/
inductive PathInput where
  | file : FileEntry → PathInput
  | dir : List FileEntry → PathInput
  | invalid : PathInput

/-- Model of list_whisper_supported_files (src/main.py lines 104-148) over a
path: a file is checked alone, a directory contributes its listing, and any
other path takes the except branch (the files variable stays unbound and the
loop raises), which prints a path error and executes a plain return, so the
caller receives None, modelled as none. -/
def list_whisper_supported_files : PathInput → Option (List SupportedFile)
  | PathInput.file e => some (list_whisper_supported_files_core [e])
  | PathInput.dir es => some (list_whisper_supported_files_core es)
  | PathInput.invalid => none

/-- Model of the start of main's loop body (src/main.py lines 538-539):
supported_files = list_whisper_supported_files(files_path) followed by
file_count = len(supported_files); when the call returned None, len raises
TypeError. -/
def main_list_files (p : PathInput) : Except PyError (List SupportedFile) :=
  match list_whisper_supported_files p with
  | none => Except.error PyError.typeError
  | some fs => Except.ok fs

/-- Model of the user session: main's while loop (src/main.py lines 526-604)
handles one input path per iteration; an uncaught exception lands in the
top-level handler (lines 610-612), which reports a generic error and ends the
session, so the remaining inputs go unprocessed.  The Bool records whether the
session ended by such a crash. -/
def run_session : List PathInput → List (List SupportedFile) × Bool
  | [] => ([], false)
  | p :: rest =>
      match main_list_files p with
      | Except.error _ => ([], true)
      | Except.ok fs => (fs :: (run_session rest).1, (run_session rest).2)

/-- C8: evaluation at a batch whose first path is neither a file nor a
directory, followed by a valid directory holding a 1 MB mp3: the classifier
call yields none (the source prints the path error and returns None, not an
empty list), main's len(None) raises TypeError, and the session ends without
processing the valid input, so the batch does not continue; the same
directory alone is processed normally. -/
theorem c8_invalid_path_crash :
    list_whisper_supported_files PathInput.invalid = none
      ∧ run_session [PathInput.invalid, PathInput.dir [⟨"a.mp3", 1048576⟩]] = ([], true)
      ∧ run_session [PathInput.dir [⟨"a.mp3", 1048576⟩]]
          = ([[⟨"a.mp3", 1⟩]], false) := by
  refine ⟨rfl, rfl, ?_⟩
  have hext : str_lower (splitext_ext ("a.mp3")) ∈ supported_extensions := by decide
  simp [run_session, main_list_files, list_whisper_supported_files,
    list_whisper_supported_files_core, classifier_step, hext]
  norm_num

/-- The observable outcome of one external ffmpeg encode invoked by
reduce_file: the exit status of the process, the size in bytes of the output
file when one was produced, and the parsed ffprobe duration (none models
non-numeric probe output, on which float() raises ValueError). -/
structure ExtEncode where
  returncode : ℤ
  outputSizeBytes : Option ℕ
  probe : Option ℚ

/-- Model of get_duration (src/main.py lines 241-255): float() applied to the
probe output, raising ValueError on non-numeric output. -/
def get_duration (probe : Option ℚ) : Except PyError ℚ :=
  match probe with
  | none => Except.error PyError.valueError
  | some d => Except.ok d

/-- Model of reduce_file (src/main.py lines 187-238).  The source calls
process.wait() and never inspects the exit status, prints the success message
unconditionally, then calls os.path.getsize on the output path, raising
FileNotFoundError when the encode produced no output file, and finally
get_duration. -/
def reduce_file (e : ExtEncode) : Except PyError (ℚ × ℚ) :=
  match e.outputSizeBytes with
  | none => Except.error PyError.fileNotFoundError
  | some sz =>
      match get_duration e.probe with
      | Except.error err => Except.error err
      | Except.ok d => Except.ok ((sz : ℚ) / (1024 * 1024), d)

/-- Model of main's preparation pass over the oversized files of one batch
(src/main.py lines 554-576 together with 610-612): reductions run one after
another while building files_to_transcribe, and the transcription loop runs
only afterwards; an exception anywhere in the pass propagates to the
top-level handler, so nothing at all of the batch is transcribed.  The result
is the list of reduction results that reach transcription, paired with the
error that ended the run, if any. -/
def run_reduce_batch : List ExtEncode → List (ℚ × ℚ) × Option PyError
  | [] => ([], none)
  | e :: rest =>
      match reduce_file e with
      | Except.error err => ([], some err)
      | Except.ok r =>
          match run_reduce_batch rest with
          | (rs, none) => (r :: rs, none)
          | (_, some err) => ([], some err)

/-- C9 counterexample: an encode whose external process reports exit status 1
but leaves a (partial) 30 MB output file with a readable duration: reduce_file
reports no transcode error at all and hands back size and duration as a
success, because the source never inspects the exit status. -/
theorem c9_counterexample :
    reduce_file ⟨1, some 31457280, some 100⟩ = Except.ok (30, 100) := by
  simp [reduce_file, get_duration]
  norm_num

/-- C9 amended: the failure behavior the source actually has: the encode exit
status is never inspected (any two statuses give the same result), and when
the output file is missing or the duration probe output is non-numeric, the
raised exception ends the whole batch: nothing of the batch is transcribed
and an error is reported, rather than only the failing file being abandoned. -/
theorem c9_reduce_error_model (rc1 rc2 : ℤ) (out : Option ℕ) (probe : Option ℚ)
    (pre rest : List ExtEncode) (e : ExtEncode)
    (hfail : e.outputSizeBytes = none ∨ e.probe = none) :
    reduce_file ⟨rc1, out, probe⟩ = reduce_file ⟨rc2, out, probe⟩
      ∧ (run_reduce_batch (pre ++ e :: rest)).1 = []
      ∧ (run_reduce_batch (pre ++ e :: rest)).2.isSome := by
  have herr : ∃ err, reduce_file e = Except.error err := by
    rcases hfail with h | h
    · exact ⟨PyError.fileNotFoundError, by simp [reduce_file, h]⟩
    · cases hout : e.outputSizeBytes with
      | none => exact ⟨PyError.fileNotFoundError, by simp [reduce_file, hout]⟩
      | some sz => exact ⟨PyError.valueError, by simp [reduce_file, get_duration, hout, h]⟩
  obtain ⟨err, herr⟩ := herr
  have hpre : ∀ pre' : List ExtEncode,
      (run_reduce_batch (pre' ++ e :: rest)).1 = []
        ∧ (run_reduce_batch (pre' ++ e :: rest)).2.isSome := by
    intro pre'
    induction pre' with
    | nil => simp [run_reduce_batch, herr]
    | cons x xs ih =>
        obtain ⟨ih1, ih2⟩ := ih
        rw [List.cons_append]
        cases hx : reduce_file x with
        | error err2 => simp [run_reduce_batch, hx]
        | ok r =>
            cases hrec : run_reduce_batch (xs ++ e :: rest) with
            | mk rs oerr =>
                cases oerr with
                | none =>
                    rw [hrec] at ih2
                    simp at ih2
                | some err3 => simp [run_reduce_batch, hx, hrec]
  exact ⟨rfl, (hpre pre).1, (hpre pre).2⟩

theorem c9_reduce_error_model_witness :
    ((⟨1, none, some 5⟩ : ExtEncode).outputSizeBytes = none
        ∨ (⟨1, none, some 5⟩ : ExtEncode).probe = none)
      ∧ (reduce_file ⟨0, some 1, some 2⟩ = reduce_file ⟨7, some 1, some 2⟩
          ∧ (run_reduce_batch ([⟨0, some 1048576, some 2⟩]
              ++ (⟨1, none, some 5⟩ : ExtEncode) :: [])).1 = []
          ∧ (run_reduce_batch ([⟨0, some 1048576, some 2⟩]
              ++ (⟨1, none, some 5⟩ : ExtEncode) :: [])).2.isSome) :=
  ⟨Or.inl rfl,
    c9_reduce_error_model 0 7 (some 1) (some 2) [⟨0, some 1048576, some 2⟩] []
      ⟨1, none, some 5⟩ (Or.inl rfl)⟩
